import Mathlib

/-!
Shallow embedding of the CannaCount inventory core (src/app.py).

The three session-state collections (products, bins, counts) become an
explicit record AppState; the five core operations become pure functions
on AppState.  Python in-place mutation of the first object found by
next(...) becomes updating the first list element with the matching id;
list.remove becomes List.erase (both drop the first occurrence);
Python truthiness of the optional bin-id strings is modelled explicitly.
Errors reported via st.error become an Option AppError paired with the
(unchanged) state, mirroring the early-return structure of the source.
-/

namespace CannaCount

/-- A product record, as built by add_product in app.py. -/
structure Product where
  id : String
  sku : String
  name : String
  category : String
  unitType : String
  strain : String
  thcContent : String
  cbdContent : String
  currentBin : Option String
  deriving Repr, DecidableEq

/-- A storage bin record, as built by add_bin in app.py. -/
structure Bin where
  id : String
  code : String
  location : String
  capacity : Int
  currentCount : Int
  products : List String
  deriving Repr, DecidableEq

/-- An inventory count record, as built by create_inventory_count. -/
structure Count where
  id : String
  binId : String
  expectedCount : Int
  actualCount : Int
  status : String
  timestamp : String
  deriving Repr, DecidableEq

/-- The Streamlit session state: the three in-memory collections. -/
structure AppState where
  products : List Product
  bins : List Bin
  counts : List Count
  deriving Repr, DecidableEq

/-- Errors the core reports via st.error. -/
inductive AppError where
  | productNotFound
  | binNotFound
  | noPendingCount
  deriving Repr, DecidableEq

/-- init_session_state: all three collections start empty. -/
def init_session_state : AppState :=
  { products := [], bins := [], counts := [] }

/-- Python truthiness of an optional string: None and the empty string
are falsy, every other string is truthy. -/
def pyTruthy : Option String → Bool
  | none => false
  | some s => s ≠ ""

/-- Update the first element whose key matches, leave the rest alone.
This models finding an object with next(...) and mutating it in place. -/
def updateFirstBy (key : α → String) (k : String) (f : α → α) : List α → List α
  | [] => []
  | x :: xs => if key x = k then f x :: xs else x :: updateFirstBy key k f xs

/-- Update the last element satisfying the predicate, leave the rest
alone.  Models selecting pending_counts[-1] and mutating it in place. -/
def updateLastWhere (p : α → Bool) (f : α → α) : List α → List α
  | [] => []
  | x :: xs =>
    if xs.any p then x :: updateLastWhere p f xs
    else if p x then f x :: xs
    else x :: xs

/-- add_product: append a fresh product with currentBin = None.  The
uuid generated by the source is passed in as the id argument. -/
def add_product (st : AppState) (id sku name category strain : String) : AppState :=
  { st with products := st.products ++
      [{ id := id, sku := sku, name := name, category := category,
         unitType := "", strain := strain, thcContent := "", cbdContent := "",
         currentBin := none }] }

/-- add_bin: append a fresh bin with currentCount = 0 and no products. -/
def add_bin (st : AppState) (id code location : String) (capacity : Int) : AppState :=
  { st with bins := st.bins ++
      [{ id := id, code := code, location := location, capacity := capacity,
         currentCount := 0, products := [] }] }

/-- Step 2 of assign_product_to_bin applied to one bin object: if the
product id is in the old bin's list, remove its first occurrence and
decrement currentCount floored at 0. -/
def binRemoveProduct (pid : String) (b : Bin) : Bin :=
  if pid ∈ b.products then
    { b with products := b.products.erase pid,
             currentCount := max 0 (b.currentCount - 1) }
  else b

/-- Step 3 of assign_product_to_bin applied to the target bin object:
append the product id and increment currentCount. -/
def binAppendProduct (pid : String) (b : Bin) : Bin :=
  { b with products := b.products ++ [pid], currentCount := b.currentCount + 1 }

/-- Lines 60-65 of app.py: if the product has a truthy old bin id that
differs from the new bin id, remove it from the old bin (when found). -/
def stepRemoveOld (bins : List Bin) (pid : String) (oldBin newBin : Option String) :
    List Bin :=
  match oldBin with
  | none => bins
  | some ob =>
    if ob ≠ "" ∧ some ob ≠ newBin then
      updateFirstBy Bin.id ob (binRemoveProduct pid) bins
    else bins

/-- assign_product_to_bin from app.py: resolve the product (error if
absent), remove it from a differing old bin, then either add it to the
truthy new bin id (when that bin exists) and set currentBin to it, or
set currentBin to None. -/
def assign_product_to_bin (st : AppState) (pid : String) (newBin : Option String) :
    Option AppError × AppState :=
  match st.products.find? (fun p => p.id == pid) with
  | none => (some AppError.productNotFound, st)
  | some product =>
    match newBin with
    | some nbid =>
      if nbid ≠ "" then
        (none, { st with
          bins := updateFirstBy Bin.id nbid (binAppendProduct pid)
            (stepRemoveOld st.bins pid product.currentBin (some nbid)),
          products := updateFirstBy Product.id pid
            (fun p => { p with currentBin := some nbid }) st.products })
      else
        (none, { st with
          bins := stepRemoveOld st.bins pid product.currentBin (some nbid),
          products := updateFirstBy Product.id pid
            (fun p => { p with currentBin := none }) st.products })
    | none =>
      (none, { st with
        bins := stepRemoveOld st.bins pid product.currentBin none,
        products := updateFirstBy Product.id pid
          (fun p => { p with currentBin := none }) st.products })

/-- create_inventory_count from app.py: error if the bin is absent,
otherwise append a pending count snapshotting the bin's currentCount.
The uuid and timestamp are passed in as arguments. -/
def create_inventory_count (st : AppState) (binId cid ts : String) :
    Option AppError × AppState :=
  match st.bins.find? (fun b => b.id == binId) with
  | none => (some AppError.binNotFound, st)
  | some b =>
    (none, { st with counts := st.counts ++
        [{ id := cid, binId := binId, expectedCount := b.currentCount,
           actualCount := 0, status := "pending", timestamp := ts }] })

/-- The predicate selecting the pending counts for a bin (line 100). -/
def pendingFor (binId : String) (c : Count) : Bool :=
  c.binId == binId && c.status == "pending"

/-- Resolution of one count record (lines 105-109): set actualCount and
move to completed or discrepancy by comparison with expectedCount. -/
def resolveRecord (actual : Int) (c : Count) : Count :=
  { c with actualCount := actual,
           status := if actual = c.expectedCount then "completed" else "discrepancy" }

/-- update_inventory_count from app.py: error if no pending count for
the bin exists, otherwise resolve the last pending one in list order. -/
def update_inventory_count (st : AppState) (binId : String) (actual : Int) :
    Option AppError × AppState :=
  if (st.counts.filter (pendingFor binId)).isEmpty then
    (some AppError.noPendingCount, st)
  else
    (none, { st with
      counts := updateLastWhere (pendingFor binId) (resolveRecord actual) st.counts })

/-- One core operation, with the ids and timestamps the source draws
from uuid/datetime supplied as data. -/
inductive Op where
  | addProduct (id sku name category strain : String)
  | addBin (id code location : String) (capacity : Int)
  | assign (pid : String) (newBin : Option String)
  | createCount (binId cid ts : String)
  | resolveCount (binId : String) (actual : Int)
  deriving Repr, DecidableEq

/-- Apply one operation to the state; errors leave the state as the
operation returned it (unchanged, by the early-return structure). -/
def applyOp (st : AppState) : Op → AppState
  | Op.addProduct id sku name category strain => add_product st id sku name category strain
  | Op.addBin id code location capacity => add_bin st id code location capacity
  | Op.assign pid newBin => (assign_product_to_bin st pid newBin).2
  | Op.createCount binId cid ts => (create_inventory_count st binId cid ts).2
  | Op.resolveCount binId actual => (update_inventory_count st binId actual).2

/-- Run a sequence of core operations from the empty initial state. -/
def runOps (ops : List Op) : AppState :=
  ops.foldl applyOp init_session_state

end CannaCount

namespace CannaCount

/-! Generic lemmas about the list-update helpers. -/

theorem updateFirstBy_of_forall_ne {key : α → String} {k : String} {f : α → α}
    {xs : List α} (h : ∀ x ∈ xs, key x ≠ k) :
    updateFirstBy key k f xs = xs := by
  induction xs with
  | nil => rfl
  | cons x xs ih =>
    simp only [updateFirstBy]
    rw [if_neg (h x (List.mem_cons_self x xs))]
    rw [ih (fun y hy => h y (List.mem_cons_of_mem x hy))]

theorem updateFirstBy_forall {P : α → Prop} {key : α → String} {k : String} {f : α → α}
    {xs : List α} (hf : ∀ x, P x → P (f x)) (hxs : ∀ x ∈ xs, P x) :
    ∀ x ∈ updateFirstBy key k f xs, P x := by
  induction xs with
  | nil => intro x hx; simp [updateFirstBy] at hx
  | cons y ys ih =>
    intro x hx
    simp only [updateFirstBy] at hx
    by_cases hk : key y = k
    · rw [if_pos hk] at hx
      rcases List.mem_cons.mp hx with h | h
      · exact h ▸ hf y (hxs y (List.mem_cons_self y ys))
      · exact hxs x (List.mem_cons_of_mem y h)
    · rw [if_neg hk] at hx
      rcases List.mem_cons.mp hx with h | h
      · exact h ▸ hxs y (List.mem_cons_self y ys)
      · exact ih (fun z hz => hxs z (List.mem_cons_of_mem y hz)) x h

theorem updateFirstBy_map_key {key : α → String} {k : String} {f : α → α}
    {xs : List α} (hf : ∀ x, key (f x) = key x) :
    (updateFirstBy key k f xs).map key = xs.map key := by
  induction xs with
  | nil => rfl
  | cons x xs ih =>
    simp only [updateFirstBy]
    by_cases hk : key x = k
    · rw [if_pos hk]; simp [hf]
    · rw [if_neg hk]; simp [ih]

theorem find?_updateFirstBy {key : α → String} {k : String} {f : α → α}
    {xs : List α} {x : α} (hf : ∀ y, key (f y) = key y)
    (hx : xs.find? (fun y => key y == k) = some x) :
    (updateFirstBy key k f xs).find? (fun y => key y == k) = some (f x) := by
  induction xs with
  | nil => simp at hx
  | cons y ys ih =>
    simp only [updateFirstBy]
    by_cases hk : key y = k
    · rw [if_pos hk]
      rw [List.find?_cons_of_pos _ (by simp [hk])] at hx
      rw [List.find?_cons_of_pos _ (by simp [hf, hk])]
      simp at hx
      rw [hx]
    · rw [if_neg hk]
      rw [List.find?_cons_of_neg _ (by simp [hk])] at hx
      rw [List.find?_cons_of_neg _ (by simp [hk])]
      exact ih hx

theorem updateLastWhere_split {p : α → Bool} {f : α → α}
    (l₁ : List α) {c : α} {l₂ : List α}
    (hc : p c = true) (hlast : ∀ x ∈ l₂, p x = false) :
    updateLastWhere p f (l₁ ++ c :: l₂) = l₁ ++ f c :: l₂ := by
  induction l₁ with
  | nil =>
    simp only [List.nil_append, updateLastWhere]
    have hany : l₂.any p = false := by
      rw [List.any_eq_false]; exact fun x hx => by simp [hlast x hx]
    rw [hany]
    simp [hc]
  | cons x l₁ ih =>
    have hany : (l₁ ++ c :: l₂).any p = true := by
      rw [List.any_eq_true]
      exact ⟨c, by simp, hc⟩
    simp only [List.cons_append, updateLastWhere, List.append_eq, hany, if_true]
    rw [ih]

theorem updateLastWhere_getElem?_of_neg {p : α → Bool} {f : α → α}
    {xs : List α} {i : Nat} {c : α}
    (hi : xs[i]? = some c) (hc : p c = false) :
    (updateLastWhere p f xs)[i]? = some c := by
  induction xs generalizing i with
  | nil => simp at hi
  | cons x xs ih =>
    simp only [updateLastWhere]
    cases i with
    | zero =>
      simp only [List.getElem?_cons_zero, Option.some.injEq] at hi
      subst hi
      by_cases hany : xs.any p = true
      · simp [hany]
      · simp only [Bool.not_eq_true] at hany
        rw [hany]
        simp [hc]
    | succ n =>
      simp only [List.getElem?_cons_succ] at hi
      by_cases hany : xs.any p = true
      · simp only [hany, if_true, List.getElem?_cons_succ]
        exact ih hi
      · simp only [Bool.not_eq_true] at hany
        simp only [hany, Bool.false_eq_true, if_false]
        split <;> simpa using hi

end CannaCount

namespace CannaCount

/-! Preservation of the bin occupancy invariant (claim about
currentCount always matching the length of the products list). -/

/-- The bin-side consistency predicate: the counter equals the length
of the membership list. -/
def BinConsistent (b : Bin) : Prop :=
  b.currentCount = (b.products.length : Int)

theorem binRemoveProduct_consistent (pid : String) (b : Bin)
    (h : BinConsistent b) : BinConsistent (binRemoveProduct pid b) := by
  unfold BinConsistent at h ⊢
  unfold binRemoveProduct
  by_cases hmem : pid ∈ b.products
  · rw [if_pos hmem]
    simp only
    rw [List.length_erase_of_mem hmem]
    have hpos : 0 < b.products.length := List.length_pos.mpr (List.ne_nil_of_mem hmem)
    rw [h]
    push_cast [Nat.cast_sub hpos]
    omega
  · rw [if_neg hmem]
    exact h

theorem binAppendProduct_consistent (pid : String) (b : Bin)
    (h : BinConsistent b) : BinConsistent (binAppendProduct pid b) := by
  unfold BinConsistent at h ⊢
  unfold binAppendProduct
  simp only [List.length_append, List.length_cons, List.length_nil]
  push_cast
  omega

theorem stepRemoveOld_consistent (bins : List Bin) (pid : String)
    (oldBin newBin : Option String)
    (h : ∀ b ∈ bins, BinConsistent b) :
    ∀ b ∈ stepRemoveOld bins pid oldBin newBin, BinConsistent b := by
  cases oldBin with
  | none => exact h
  | some ob =>
    simp only [stepRemoveOld]
    split
    · exact updateFirstBy_forall (fun x hx => binRemoveProduct_consistent pid x hx) h
    · exact h

theorem assign_consistent (st : AppState) (pid : String) (newBin : Option String)
    (h : ∀ b ∈ st.bins, BinConsistent b) :
    ∀ b ∈ (assign_product_to_bin st pid newBin).2.bins, BinConsistent b := by
  unfold assign_product_to_bin
  split
  · exact h
  · split
    · split
      · exact updateFirstBy_forall (fun x hx => binAppendProduct_consistent pid x hx)
          (stepRemoveOld_consistent st.bins pid _ _ h)
      · exact stepRemoveOld_consistent st.bins pid _ _ h
    · exact stepRemoveOld_consistent st.bins pid _ _ h

theorem create_count_bins_unchanged (st : AppState) (binId cid ts : String) :
    (create_inventory_count st binId cid ts).2.bins = st.bins := by
  unfold create_inventory_count
  cases st.bins.find? (fun b => b.id == binId) <;> rfl

theorem update_count_bins_unchanged (st : AppState) (binId : String) (actual : Int) :
    (update_inventory_count st binId actual).2.bins = st.bins := by
  unfold update_inventory_count
  split <;> rfl

theorem applyOp_consistent {st : AppState} (op : Op)
    (h : ∀ b ∈ st.bins, BinConsistent b) :
    ∀ b ∈ (applyOp st op).bins, BinConsistent b := by
  cases op with
  | addProduct id sku name category strain => exact h
  | addBin id code location capacity =>
    intro b hb
    simp only [applyOp, add_bin, List.mem_append, List.mem_singleton] at hb
    rcases hb with hb | hb
    · exact h b hb
    · subst hb
      unfold BinConsistent
      rfl
  | assign pid newBin => exact assign_consistent st pid newBin h
  | createCount binId cid ts =>
    rw [applyOp, create_count_bins_unchanged]
    exact h
  | resolveCount binId actual =>
    rw [applyOp, update_count_bins_unchanged]
    exact h

theorem foldl_applyOp_consistent (ops : List Op) (st : AppState)
    (h : ∀ b ∈ st.bins, BinConsistent b) :
    ∀ b ∈ (ops.foldl applyOp st).bins, BinConsistent b := by
  induction ops generalizing st with
  | nil => exact h
  | cons op ops ih =>
    rw [List.foldl_cons]
    exact ih (applyOp st op) (applyOp_consistent op h)

end CannaCount

namespace CannaCount

/-- C1: the claim says assigning a product to the bin it already
occupies is a no-op (currentCount unchanged, no duplicate in the
products list).  The code instead re-appends the product id and
increments the counter again: after the second identical assign the
only bin holds the id twice with currentCount 2, where a single
assign left it once with currentCount 1. -/
theorem c1_same_bin_reassign_not_idempotent :
    ((runOps [Op.addBin "b1" "B1" "A1" 50, Op.addProduct "p1" "s" "n" "flower" "x",
        Op.assign "p1" (some "b1")]).bins.map Bin.currentCount = [1]) ∧
    ((runOps [Op.addBin "b1" "B1" "A1" 50, Op.addProduct "p1" "s" "n" "flower" "x",
        Op.assign "p1" (some "b1")]).bins.map Bin.products = [["p1"]]) ∧
    ((runOps [Op.addBin "b1" "B1" "A1" 50, Op.addProduct "p1" "s" "n" "flower" "x",
        Op.assign "p1" (some "b1"), Op.assign "p1" (some "b1")]).bins.map Bin.currentCount = [2]) ∧
    ((runOps [Op.addBin "b1" "B1" "A1" 50, Op.addProduct "p1" "s" "n" "flower" "x",
        Op.assign "p1" (some "b1"), Op.assign "p1" (some "b1")]).bins.map Bin.products
      = [["p1", "p1"]]) := by
  decide

/-- C2: the claim says that after every operation sequence from the
empty state, a product with non-null currentBin occurs exactly once in
that bin's products list.  The reachable state below has the product
assigned to bin b1 while its id occurs twice in b1's list. -/
theorem c2_membership_invariant_violated :
    ((runOps [Op.addBin "b1" "B1" "A1" 50, Op.addProduct "p1" "s" "n" "flower" "x",
        Op.assign "p1" (some "b1"), Op.assign "p1" (some "b1")]).products.map
        Product.currentBin = [some "b1"]) ∧
    ((runOps [Op.addBin "b1" "B1" "A1" 50, Op.addProduct "p1" "s" "n" "flower" "x",
        Op.assign "p1" (some "b1"), Op.assign "p1" (some "b1")]).bins.map
        (fun b => b.products.count "p1") = [2]) := by
  decide

/-- C8: the claim says assign(p, b1); assign(p, b2); assign(p, null)
always leaves p absent from both bins.  Starting from the consistent
state in which p is already assigned to b1, the first assign appends a
duplicate, the move to b2 removes only one occurrence, and the final
unassignment leaves one copy of p in b1: currentBin is null as claimed
but b1 still contains p. -/
theorem c8_round_trip_leaves_product_behind :
    ((runOps [Op.addProduct "p1" "s" "n" "flower" "x",
        Op.addBin "b1" "B1" "A1" 50, Op.addBin "b2" "B2" "A2" 50,
        Op.assign "p1" (some "b1"),
        Op.assign "p1" (some "b1"), Op.assign "p1" (some "b2"),
        Op.assign "p1" none]).products.map Product.currentBin = [none]) ∧
    ((runOps [Op.addProduct "p1" "s" "n" "flower" "x",
        Op.addBin "b1" "B1" "A1" 50, Op.addBin "b2" "B2" "A2" 50,
        Op.assign "p1" (some "b1"),
        Op.assign "p1" (some "b1"), Op.assign "p1" (some "b2"),
        Op.assign "p1" none]).bins.map Bin.products = [["p1"], []]) := by
  decide

/-- C4 counterexample: the empty string is a non-null bin id that
identifies no existing bin, yet assign does not set currentBin to it:
the truthiness test on line 67 of app.py routes the empty string to the
unassignment branch, so currentBin becomes null instead. -/
theorem c4_counterexample_empty_string :
    ((assign_product_to_bin (runOps [Op.addProduct "p1" "s" "n" "flower" "x"])
        "p1" (some "")).2.products.map Product.currentBin = [none]) ∧
    ((assign_product_to_bin (runOps [Op.addProduct "p1" "s" "n" "flower" "x"])
        "p1" (some "")).2.products.map Product.currentBin ≠ [some ""]) := by
  decide

/-- C3: after every sequence of core operations starting from the empty
initial state, every bin satisfies currentCount equal to the length of
its products list. -/
theorem c3_currentCount_matches_products (ops : List Op) (b : Bin)
    (hb : b ∈ (runOps ops).bins) :
    b.currentCount = (b.products.length : Int) := by
  refine foldl_applyOp_consistent ops init_session_state ?_ b hb
  intro x hx
  simp [init_session_state] at hx

/-- Witness for C3 at a concrete operation sequence: the bin reached by
a double same-bin assignment still satisfies the counter identity. -/
theorem c3_currentCount_matches_products_witness :
    ({ id := "b1", code := "B1", location := "A1", capacity := 50,
       currentCount := 2, products := ["p1", "p1"] } : Bin).currentCount
      = (({ id := "b1", code := "B1", location := "A1", capacity := 50,
            currentCount := 2, products := ["p1", "p1"] } : Bin).products.length : Int) :=
  c3_currentCount_matches_products
    [Op.addBin "b1" "B1" "A1" 50, Op.addProduct "p1" "s" "n" "flower" "x",
     Op.assign "p1" (some "b1"), Op.assign "p1" (some "b1")] _ (by decide)

end CannaCount

namespace CannaCount

theorem binRemoveProduct_id (pid : String) (b : Bin) :
    (binRemoveProduct pid b).id = b.id := by
  unfold binRemoveProduct
  split <;> rfl

/-- C4 (amended): for every existing product and every truthy (non-null,
non-empty) bin id that identifies no existing bin, assign succeeds,
sets the product's currentBin to the dangling id, and leaves the bins
exactly as the old-bin-removal step left them: the step-3 part touches
no bin's products list or currentCount. -/
theorem c4_dangling_assignment (st : AppState) (pid nbid : String) (product : Product)
    (hp : st.products.find? (fun p => p.id == pid) = some product)
    (hne : nbid ≠ "")
    (hb : st.bins.find? (fun b => b.id == nbid) = none) :
    (assign_product_to_bin st pid (some nbid)).1 = none ∧
    (assign_product_to_bin st pid (some nbid)).2.bins
      = stepRemoveOld st.bins pid product.currentBin (some nbid) ∧
    (assign_product_to_bin st pid (some nbid)).2.products.find? (fun p => p.id == pid)
      = some { product with currentBin := some nbid } := by
  have hnone : ∀ b ∈ st.bins, b.id ≠ nbid := by
    intro b hbmem
    have := List.find?_eq_none.mp hb b hbmem
    simpa using this
  have hnone1 : ∀ b ∈ stepRemoveOld st.bins pid product.currentBin (some nbid),
      b.id ≠ nbid := by
    cases product.currentBin with
    | none => exact hnone
    | some ob =>
      simp only [stepRemoveOld]
      split
      · exact updateFirstBy_forall
          (fun x hx => by rw [binRemoveProduct_id]; exact hx) hnone
      · exact hnone
  simp only [assign_product_to_bin, hp]
  rw [if_pos hne]
  refine ⟨rfl, ?_, ?_⟩
  · exact updateFirstBy_of_forall_ne hnone1
  · exact find?_updateFirstBy (fun y => rfl) hp

/-- Witness for C4 (amended): a product assigned to an existing bin is
reassigned to the nonexistent id ghost; its currentBin becomes ghost
while the only bin change is the removal performed by step 2. -/
theorem c4_dangling_assignment_witness :
    (assign_product_to_bin (runOps [Op.addProduct "p1" "s" "n" "flower" "x",
        Op.addBin "b1" "B1" "A1" 50, Op.assign "p1" (some "b1")]) "p1" (some "ghost")).1
      = none ∧
    (assign_product_to_bin (runOps [Op.addProduct "p1" "s" "n" "flower" "x",
        Op.addBin "b1" "B1" "A1" 50, Op.assign "p1" (some "b1")]) "p1" (some "ghost")).2.bins
      = stepRemoveOld (runOps [Op.addProduct "p1" "s" "n" "flower" "x",
          Op.addBin "b1" "B1" "A1" 50, Op.assign "p1" (some "b1")]).bins
          "p1" (some "b1") (some "ghost") ∧
    (assign_product_to_bin (runOps [Op.addProduct "p1" "s" "n" "flower" "x",
        Op.addBin "b1" "B1" "A1" 50, Op.assign "p1" (some "b1")]) "p1"
        (some "ghost")).2.products.find? (fun p => p.id == "p1")
      = some { id := "p1", sku := "s", name := "n", category := "flower", unitType := "",
               strain := "x", thcContent := "", cbdContent := "",
               currentBin := some "ghost" } := by
  have h := c4_dangling_assignment (runOps [Op.addProduct "p1" "s" "n" "flower" "x",
      Op.addBin "b1" "B1" "A1" 50, Op.assign "p1" (some "b1")]) "p1" "ghost"
      { id := "p1", sku := "s", name := "n", category := "flower", unitType := "",
        strain := "x", thcContent := "", cbdContent := "", currentBin := some "b1" }
      (by decide) (by decide) (by decide)
  exact h

/-- C10: for an existing product, assigning the empty string (a
non-null but falsy bin id) acts as pure unassignment: the operation
succeeds, the bins are exactly those left by the old-bin-removal step
(the assignment branch changes no bin), and currentBin becomes null
rather than the empty string. -/
theorem c10_empty_string_assign_unassigns (st : AppState) (pid : String) (product : Product)
    (hp : st.products.find? (fun p => p.id == pid) = some product) :
    (assign_product_to_bin st pid (some "")).1 = none ∧
    (assign_product_to_bin st pid (some "")).2.bins
      = stepRemoveOld st.bins pid product.currentBin (some "") ∧
    (assign_product_to_bin st pid (some "")).2.products.find? (fun p => p.id == pid)
      = some { product with currentBin := none } := by
  simp only [assign_product_to_bin, hp]
  rw [if_neg (by simp)]
  exact ⟨rfl, rfl, find?_updateFirstBy (fun y => rfl) hp⟩

/-- Witness for C10: assigning the empty string to a product currently
in bin b1 removes it from b1 and nulls its currentBin. -/
theorem c10_empty_string_assign_unassigns_witness :
    (assign_product_to_bin (runOps [Op.addProduct "p1" "s" "n" "flower" "x",
        Op.addBin "b1" "B1" "A1" 50, Op.assign "p1" (some "b1")]) "p1" (some "")).1
      = none ∧
    (assign_product_to_bin (runOps [Op.addProduct "p1" "s" "n" "flower" "x",
        Op.addBin "b1" "B1" "A1" 50, Op.assign "p1" (some "b1")]) "p1" (some "")).2.bins
      = stepRemoveOld (runOps [Op.addProduct "p1" "s" "n" "flower" "x",
          Op.addBin "b1" "B1" "A1" 50, Op.assign "p1" (some "b1")]).bins
          "p1" (some "b1") (some "") ∧
    (assign_product_to_bin (runOps [Op.addProduct "p1" "s" "n" "flower" "x",
        Op.addBin "b1" "B1" "A1" 50, Op.assign "p1" (some "b1")]) "p1"
        (some "")).2.products.find? (fun p => p.id == "p1")
      = some { id := "p1", sku := "s", name := "n", category := "flower", unitType := "",
               strain := "x", thcContent := "", cbdContent := "",
               currentBin := none } :=
  c10_empty_string_assign_unassigns (runOps [Op.addProduct "p1" "s" "n" "flower" "x",
      Op.addBin "b1" "B1" "A1" 50, Op.assign "p1" (some "b1")]) "p1"
      { id := "p1", sku := "s", name := "n", category := "flower", unitType := "",
        strain := "x", thcContent := "", cbdContent := "", currentBin := some "b1" }
      (by decide)

end CannaCount

namespace CannaCount

/-- C5: when the count collection splits as l₁ ++ c :: l₂ with c a
pending count for the bin and nothing after c pending for it (c is the
last pending count in insertion order), resolveCount succeeds, mutates
exactly c, sets its actualCount to the supplied value, and sets its
status to completed when the value equals expectedCount and to
discrepancy otherwise. -/
theorem c5_resolve_picks_last_pending (st : AppState) (binId : String) (actual : Int)
    (l₁ l₂ : List Count) (c : Count)
    (hsplit : st.counts = l₁ ++ c :: l₂)
    (hc : pendingFor binId c = true)
    (hlast : ∀ x ∈ l₂, pendingFor binId x = false) :
    (update_inventory_count st binId actual).1 = none ∧
    (update_inventory_count st binId actual).2.counts
      = l₁ ++ { c with
          actualCount := actual,
          status := if actual = c.expectedCount then "completed"
                    else "discrepancy" } :: l₂ := by
  have hcmem : c ∈ st.counts.filter (pendingFor binId) := by
    rw [hsplit]
    exact List.mem_filter.mpr ⟨by simp, hc⟩
  have hfilter : (st.counts.filter (pendingFor binId)).isEmpty = false := by
    cases hfe : st.counts.filter (pendingFor binId) with
    | nil => rw [hfe] at hcmem; simp at hcmem
    | cons y ys => rfl
  simp only [update_inventory_count, hfilter, Bool.false_eq_true, if_false]
  refine ⟨by trivial, ?_⟩
  simp only [hsplit]
  rw [updateLastWhere_split l₁ hc hlast]
  rfl

/-- Witness for C5: with two pending counts for bin b1, resolving with
value 1 mutates only the later one (expectedCount 1, so it completes)
and leaves the earlier pending count untouched. -/
theorem c5_resolve_picks_last_pending_witness :
    (update_inventory_count (runOps [Op.addBin "b1" "B1" "A1" 50,
        Op.createCount "b1" "c1" "t1",
        Op.addProduct "p1" "s" "n" "flower" "x", Op.assign "p1" (some "b1"),
        Op.createCount "b1" "c2" "t2"]) "b1" 1).1 = none ∧
    (update_inventory_count (runOps [Op.addBin "b1" "B1" "A1" 50,
        Op.createCount "b1" "c1" "t1",
        Op.addProduct "p1" "s" "n" "flower" "x", Op.assign "p1" (some "b1"),
        Op.createCount "b1" "c2" "t2"]) "b1" 1).2.counts
      = [{ id := "c1", binId := "b1", expectedCount := 0, actualCount := 0,
           status := "pending", timestamp := "t1" }]
        ++ { id := "c2", binId := "b1", expectedCount := 1, actualCount := 1,
             status := if (1 : Int) = 1 then "completed" else "discrepancy",
             timestamp := "t2" } :: [] := by
  have h := c5_resolve_picks_last_pending (runOps [Op.addBin "b1" "B1" "A1" 50,
      Op.createCount "b1" "c1" "t1",
      Op.addProduct "p1" "s" "n" "flower" "x", Op.assign "p1" (some "b1"),
      Op.createCount "b1" "c2" "t2"]) "b1" 1
      [{ id := "c1", binId := "b1", expectedCount := 0, actualCount := 0,
         status := "pending", timestamp := "t1" }] []
      { id := "c2", binId := "b1", expectedCount := 1, actualCount := 0,
        status := "pending", timestamp := "t2" }
      (by decide) (by decide) (by intro x hx; simp at hx)
  exact h

/-- C6: createCount on an existing bin appends exactly one pending count
snapshotting that bin's currentCount with actualCount 0, and on a
missing bin id reports NotFoundError leaving the whole state, counts
included, unchanged. -/
theorem c6_create_count_spec (st : AppState) (binId cid ts : String) :
    (∀ b, st.bins.find? (fun x => x.id == binId) = some b →
      create_inventory_count st binId cid ts
        = (none, { st with counts := st.counts ++
            [{ id := cid, binId := binId, expectedCount := b.currentCount,
               actualCount := 0, status := "pending", timestamp := ts }] })) ∧
    (st.bins.find? (fun x => x.id == binId) = none →
      create_inventory_count st binId cid ts = (some AppError.binNotFound, st)) := by
  constructor
  · intro b hfound
    simp only [create_inventory_count, hfound]
  · intro hnone
    simp only [create_inventory_count, hnone]

/-- Witness for C6: on a fresh bin the created count snapshots
expectedCount 0 and status pending (scenario A), and a nonexistent bin
id yields the not-found error with the state unchanged. -/
theorem c6_create_count_spec_witness :
    (create_inventory_count (runOps [Op.addBin "b1" "B1" "A1" 50]) "b1" "c1" "t1").2.counts
      = [{ id := "c1", binId := "b1", expectedCount := 0, actualCount := 0,
           status := "pending", timestamp := "t1" }] ∧
    create_inventory_count init_session_state "ghost" "c1" "t1"
      = (some AppError.binNotFound, init_session_state) := by
  constructor
  · rw [(c6_create_count_spec (runOps [Op.addBin "b1" "B1" "A1" 50]) "b1" "c1" "t1").1
        { id := "b1", code := "B1", location := "A1", capacity := 50,
          currentCount := 0, products := [] } (by decide)]
    decide
  · exact (c6_create_count_spec init_session_state "ghost" "c1" "t1").2 (by decide)

/-- C7: when no pending count for the bin exists, resolveCount reports
NoPendingCountError and returns the state unchanged, so no count
record's actualCount or status is mutated. -/
theorem c7_resolve_without_pending (st : AppState) (binId : String) (actual : Int)
    (h : st.counts.filter (pendingFor binId) = []) :
    update_inventory_count st binId actual = (some AppError.noPendingCount, st) := by
  simp only [update_inventory_count, h]
  rfl

/-- Witness for C7: resolving bin b1 with value 5 before any count was
created fails with the no-pending error and changes nothing. -/
theorem c7_resolve_without_pending_witness :
    update_inventory_count (runOps [Op.addBin "b1" "B1" "A1" 50]) "b1" 5
      = (some AppError.noPendingCount, runOps [Op.addBin "b1" "B1" "A1" 50]) :=
  c7_resolve_without_pending (runOps [Op.addBin "b1" "B1" "A1" 50]) "b1" 5 (by decide)

/-- C9: a count record whose status is completed or discrepancy is
never touched by any later resolveCount: the record at its position is
unchanged (in particular its status and actualCount), because only
pending records are eligible for resolution. -/
theorem c9_terminal_counts_final (st : AppState) (binId : String) (actual : Int)
    (i : Nat) (c : Count) (hi : st.counts[i]? = some c)
    (hterm : c.status = "completed" ∨ c.status = "discrepancy") :
    ((update_inventory_count st binId actual).2.counts)[i]? = some c := by
  have hpF : pendingFor binId c = false := by
    unfold pendingFor
    rcases hterm with h | h <;> rw [h] <;> simp
  unfold update_inventory_count
  split
  · exact hi
  · exact updateLastWhere_getElem?_of_neg hi hpF

/-- Witness for C9: a completed count for bin b1 survives a further
resolveCount on b1 unchanged. -/
theorem c9_terminal_counts_final_witness :
    ((update_inventory_count (runOps [Op.addBin "b1" "B1" "A1" 50,
        Op.createCount "b1" "c1" "t1", Op.resolveCount "b1" 0]) "b1" 7).2.counts)[0]?
      = some { id := "c1", binId := "b1", expectedCount := 0, actualCount := 0,
               status := "completed", timestamp := "t1" } :=
  c9_terminal_counts_final (runOps [Op.addBin "b1" "B1" "A1" 50,
      Op.createCount "b1" "c1" "t1", Op.resolveCount "b1" 0]) "b1" 7 0
      { id := "c1", binId := "b1", expectedCount := 0, actualCount := 0,
        status := "completed", timestamp := "t1" }
      (by decide) (Or.inl rfl)

end CannaCount
